import Mathlib

/-!
Verification of the BuzzBand alerting engine (`app.py`).

We give a shallow embedding of the core pipeline: timestamp parsing and
prediction normalization (`parse_time`, `_normalize_predictions`), cross-stop
trip correlation (`match_origin_dest_by_trip`), the threshold classifiers
(`check_origin_alerts`, `check_dest_alerts`), the change-driven dispatch block
of `poll_loop`, the per-cycle LED orientation command
(`send_led_status_update`), and the resilient device channel
(`_arduino_write`).

Modelling conventions:
* Python floats (ETA seconds, instants) are modelled as rationals `ℚ`;
  `int()` truncation toward zero is `pyInt`.
* `datetime` instants are modelled as absolute epoch seconds `ℚ`; the library
  parser `datetime.fromisoformat` is an abstract parameter
  `fromiso : String → Option ℚ` (`none` models a raised `ValueError`);
  `astimezone(timezone.utc)` does not change the instant denoted.
* Python's stable ascending `list.sort(key=...)` is modelled with
  `List.insertionSort`, which is also stable for a total preorder on the key.
* A fallible network fetch is an `Except Unit ApiResponse` input: `.error`
  models the call raising, `.ok` the decoded JSON body.
* Serial-device nondeterminism (whether a port is found, whether a write
  raises) is an explicit `DeviceEnv` oracle; writes are collected as the list
  of command lines sent.
-/

namespace BuzzBand

/-- Truncation toward zero of a rational, the behaviour of Python `int()` on a
float. -/
def pyInt (q : ℚ) : Int := if 0 ≤ q then ⌊q⌋ else -⌊-q⌋

/-- One element of the JSON `data` array of the predictions API: the fields
`_normalize_predictions` reads (`attributes.arrival_time`,
`attributes.departure_time`, `relationships.trip.data.id`,
`attributes.direction_id`). A `none` timestamp models a missing key. -/
structure RawItem where
  arrival_time : Option String
  departure_time : Option String
  trip_id : Option String
  direction_id : Option Int
deriving DecidableEq, Repr

/-- The decoded body returned by `get_predictions_for_stop`: its `data` array. -/
structure ApiResponse where
  data : List RawItem
deriving DecidableEq, Repr

/-- Normalized prediction row built by `_normalize_predictions`:
`{'ts': …, 'secs': …, 'trip_id': …, 'direction_id': …}`. -/
structure Row where
  ts : ℚ
  secs : ℚ
  trip_id : Option String
  direction_id : Option Int
deriving DecidableEq, Repr

/-- `parse_time` (app.py:226-233): `None`/empty strings give `None`; otherwise
`fromisoformat(timestr.replace("Z","+00:00"))` is tried, with any parse
failure (modelled by `fromiso` returning `none`) swallowed to `None`. -/
def parse_time (fromiso : String → Option ℚ) (timestr : Option String) :
    Option ℚ :=
  match timestr with
  | none => none
  | some s => if s = "" then none else fromiso (s.replace "Z" "+00:00")

/-- The per-item body of the loop in `_normalize_predictions` (app.py:248-269):
parse arrival then departure time, keep `arrival or departure`, drop the item
when neither parses or when the ETA is not strictly positive. -/
def normalizeItem (fromiso : String → Option ℚ) (now : ℚ) (item : RawItem) :
    Option Row :=
  match (parse_time fromiso item.arrival_time).orElse
      (fun _ => parse_time fromiso item.departure_time) with
  | none => none
  | some ts =>
    if ts - now ≤ 0 then none
    else some ⟨ts, ts - now, item.trip_id, item.direction_id⟩

/-- Key order used by `rows.sort(key=lambda r: r["secs"])`. -/
def rowLE (a b : Row) : Prop := a.secs ≤ b.secs

instance : DecidableRel rowLE := fun a b =>
  inferInstanceAs (Decidable (a.secs ≤ b.secs))

/-- `_normalize_predictions` (app.py:240-271) after the fetch: filter and
convert the raw items, then sort ascending by `secs`. -/
def normalizeRows (fromiso : String → Option ℚ) (now : ℚ)
    (data : List RawItem) : List Row :=
  List.insertionSort rowLE (data.filterMap (normalizeItem fromiso now))

/-- `_normalize_predictions` including its fallible fetch: a transport or
status error in `get_predictions_for_stop` propagates to the caller. -/
def normalize_predictions (fromiso : String → Option ℚ) (now : ℚ)
    (fetch : Except Unit ApiResponse) : Except Unit (List Row) :=
  fetch.map (fun raw => normalizeRows fromiso now raw.data)

/-- Configurable thresholds read from the environment at startup
(app.py:37-43). The urgent cutoffs (30 s origin, 60 s destination) are
hard-coded in the classifiers, not configuration. -/
structure Config where
  ORIGIN_NEARBY_THRESHOLD : Int
  ORIGIN_APPROACH_THRESHOLD : Int
  ORIGIN_STOP_THRESHOLD : Int
  DEST_NEARBY_THRESHOLD : Int
  DEST_APPROACH_THRESHOLD : Int
  DEST_STOP_THRESHOLD : Int
deriving DecidableEq, Repr

/-- The default threshold values from app.py:37-43. -/
def defaultConfig : Config :=
  { ORIGIN_NEARBY_THRESHOLD := 300
    ORIGIN_APPROACH_THRESHOLD := 120
    ORIGIN_STOP_THRESHOLD := 60
    DEST_NEARBY_THRESHOLD := 600
    DEST_APPROACH_THRESHOLD := 300
    DEST_STOP_THRESHOLD := 120 }

/-- `check_origin_alerts` (app.py:301-307). -/
def check_origin_alerts (cfg : Config) (origin_secs : Option Int) : String :=
  match origin_secs with
  | none => "IDLE"
  | some s =>
    if s ≤ 30 then "URGENT"
    else if s ≤ cfg.ORIGIN_STOP_THRESHOLD then "ORIGIN_STOP"
    else if s ≤ cfg.ORIGIN_APPROACH_THRESHOLD then "ORIGIN_APPROACH"
    else if s ≤ cfg.ORIGIN_NEARBY_THRESHOLD then "ORIGIN_NEARBY"
    else "IDLE"

/-- `check_dest_alerts` (app.py:309-315). -/
def check_dest_alerts (cfg : Config) (dest_secs : Option Int) : String :=
  match dest_secs with
  | none => "IDLE"
  | some s =>
    if s ≤ 60 then "URGENT"
    else if s ≤ cfg.DEST_STOP_THRESHOLD then "DEST_STOP"
    else if s ≤ cfg.DEST_APPROACH_THRESHOLD then "DEST_APPROACH"
    else if s ≤ cfg.DEST_NEARBY_THRESHOLD then "DEST_NEARBY"
    else "IDLE"

/-- The five alert levels the origin-side classifier can emit. -/
def originLevels : List String :=
  ["IDLE", "URGENT", "ORIGIN_STOP", "ORIGIN_APPROACH", "ORIGIN_NEARBY"]

/-- The five alert levels the destination-side classifier can emit. -/
def destLevels : List String :=
  ["IDLE", "URGENT", "DEST_STOP", "DEST_APPROACH", "DEST_NEARBY"]

/-- Result record of the trip correlator: `(origin_secs, dest_secs, trip_id)`,
any component possibly absent. -/
structure TripMatch where
  origin_secs : Option Int
  dest_secs : Option Int
  trip_id : Option String
deriving DecidableEq, Repr

/-- Python truthiness of a trip id: `if not trip_id: continue` skips both
`None` and the empty string. -/
def truthyTrip : Option String → Bool
  | none => false
  | some s => !(s = "")

/-- The `next((d for d in dest_rows if d["trip_id"] == trip_id), None)` lookup
in `match_origin_dest_by_trip` (app.py:291). -/
def findDestMatch (dest_rows : List Row) (tid : String) : Option Row :=
  dest_rows.find? (fun d => d.trip_id = some tid)

/-- The `for o in origin_rows` loop of `match_origin_dest_by_trip`
(app.py:286-293): skip origin rows without a truthy trip id, return on the
first row whose trip id also occurs at the destination. -/
def tryTripLoop (origin_rows dest_rows : List Row) :
    Option (Int × Int × String) :=
  match origin_rows with
  | [] => none
  | o :: rest =>
    match o.trip_id with
    | none => tryTripLoop rest dest_rows
    | some tid =>
      if tid = "" then tryTripLoop rest dest_rows
      else
        match findDestMatch dest_rows tid with
        | some d => some (pyInt o.secs, pyInt d.secs, tid)
        | none => tryTripLoop rest dest_rows

/-- `match_origin_dest_by_trip` (app.py:273-296) on the two already-normalized
row lists (the function's own fetch-and-normalize prelude, lines 279-280, is
factored out as `match_origin_dest_fetch` below). -/
def match_origin_dest_by_trip (origin_rows dest_rows : List Row) : TripMatch :=
  match origin_rows with
  | [] => ⟨none, none, none⟩
  | o0 :: _ =>
    match tryTripLoop origin_rows dest_rows with
    | some (os, ds, tid) => ⟨some os, some ds, some tid⟩
    | none => ⟨some (pyInt o0.secs), none, o0.trip_id⟩

/-- `match_origin_dest_by_trip` including its two internal
`_normalize_predictions` calls: an exception in either fetch propagates, the
origin fetch being attempted first. -/
def match_origin_dest_fetch (fromiso : String → Option ℚ) (now : ℚ)
    (ofetch dfetch : Except Unit ApiResponse) : Except Unit TripMatch :=
  match normalize_predictions fromiso now ofetch,
      normalize_predictions fromiso now dfetch with
  | .ok os, .ok ds => .ok (match_origin_dest_by_trip os ds)
  | .error e, _ => .error e
  | _, .error e => .error e

/-- If the origin loop returns a triple, its parts come from an origin row and
a destination row sharing the same non-empty trip id. -/
theorem tryTripLoop_sound (origin_rows dest_rows : List Row)
    (os ds : Int) (tid : String)
    (h : tryTripLoop origin_rows dest_rows = some (os, ds, tid)) :
    ∃ o ∈ origin_rows, ∃ d ∈ dest_rows,
      o.trip_id = some tid ∧ d.trip_id = some tid ∧ tid ≠ "" ∧
      os = pyInt o.secs ∧ ds = pyInt d.secs := by
  induction origin_rows with
  | nil => simp [tryTripLoop] at h
  | cons o rest ih =>
    cases ho : o.trip_id with
    | none =>
      simp only [tryTripLoop, ho] at h
      obtain ⟨o', ho', rest'⟩ := ih h
      exact ⟨o', List.mem_cons_of_mem _ ho', rest'⟩
    | some t =>
      simp only [tryTripLoop, ho] at h
      by_cases ht : t = ""
      · rw [if_pos ht] at h
        obtain ⟨o', ho', rest'⟩ := ih h
        exact ⟨o', List.mem_cons_of_mem _ ho', rest'⟩
      · rw [if_neg ht] at h
        cases hd : findDestMatch dest_rows t with
        | none =>
          rw [hd] at h
          obtain ⟨o', ho', rest'⟩ := ih h
          exact ⟨o', List.mem_cons_of_mem _ ho', rest'⟩
        | some d =>
          rw [hd] at h
          simp only [Option.some.injEq, Prod.mk.injEq] at h
          obtain ⟨h1, h2, h3⟩ := h
          have hdm : d.trip_id = some t := by
            simpa using List.find?_some hd
          have hdmem := List.mem_of_find?_eq_some hd
          refine ⟨o, List.mem_cons_self o rest, d, hdmem, ?_, ?_, ?_, ?_, ?_⟩
          · rw [ho, h3]
          · rw [hdm, h3]
          · rw [← h3]; exact ht
          · exact h1.symm
          · exact h2.symm

/-- If the origin loop finds no pair, no origin row with a truthy trip id
shares its trip id with any destination row; conversely under that hypothesis
the loop returns `none`. -/
theorem tryTripLoop_none (origin_rows dest_rows : List Row)
    (h : ∀ o ∈ origin_rows, truthyTrip o.trip_id = true →
      ∀ d ∈ dest_rows, d.trip_id ≠ o.trip_id) :
    tryTripLoop origin_rows dest_rows = none := by
  induction origin_rows with
  | nil => rfl
  | cons o rest ih =>
    have hrest := ih (fun o' ho' => h o' (List.mem_cons_of_mem _ ho'))
    cases ho : o.trip_id with
    | none => simp only [tryTripLoop, ho]; exact hrest
    | some t =>
      simp only [tryTripLoop, ho]
      by_cases ht : t = ""
      · rw [if_pos ht]; exact hrest
      · rw [if_neg ht]
        have hnotruthy : truthyTrip o.trip_id = true := by
          rw [ho]; simp [truthyTrip, ht]
        have hnone : findDestMatch dest_rows t = none := by
          apply List.find?_eq_none.mpr
          intro d hd
          have := h o (List.mem_cons_self o rest) hnotruthy d hd
          rw [ho] at this
          simpa using this
        rw [hnone]
        exact hrest

/-- C1: the trip correlator never pairs mismatched trips. Whenever the
returned `TripMatch` has a non-null destination ETA, that ETA was taken from a
destination row whose trip id is identical to the trip id of the origin row
whose ETA is returned, and that shared trip id is the returned one. -/
theorem C1_no_mismatched_trips (origin_rows dest_rows : List Row)
    (m : TripMatch) (hm : match_origin_dest_by_trip origin_rows dest_rows = m)
    (ds : Int) (hds : m.dest_secs = some ds) :
    ∃ tid : String, m.trip_id = some tid ∧
      ∃ o ∈ origin_rows, ∃ d ∈ dest_rows,
        o.trip_id = some tid ∧ d.trip_id = some tid ∧
        m.origin_secs = some (pyInt o.secs) ∧ ds = pyInt d.secs := by
  cases origin_rows with
  | nil =>
    simp only [match_origin_dest_by_trip] at hm
    rw [← hm] at hds
    simp at hds
  | cons o0 rest =>
    cases hl : tryTripLoop (o0 :: rest) dest_rows with
    | none =>
      simp only [match_origin_dest_by_trip, hl] at hm
      rw [← hm] at hds
      simp at hds
    | some triple =>
      obtain ⟨os, ds', tid⟩ := triple
      simp only [match_origin_dest_by_trip, hl] at hm
      obtain ⟨o, ho, d, hd, hot, hdt, htne, hos, hds'⟩ :=
        tryTripLoop_sound (o0 :: rest) dest_rows os ds' tid hl
      have hdseq : ds = ds' := by
        rw [← hm] at hds
        simpa using hds.symm
      refine ⟨tid, ?_, o, ho, d, hd, hot, hdt, ?_, ?_⟩
      · rw [← hm]
      · rw [← hm, hos]
      · rw [hdseq, hds']

/-- Witness for C1: an origin row with trip id "A" and ETA 100 s paired with a
destination row with the same trip id and ETA 400 s. -/
theorem C1_no_mismatched_trips_witness :
    ∃ tid : String,
      (TripMatch.mk (some 100) (some 400) (some "A")).trip_id = some tid ∧
      ∃ o ∈ [Row.mk 100 100 (some "A") none],
        ∃ d ∈ [Row.mk 400 400 (some "A") none],
          o.trip_id = some tid ∧ d.trip_id = some tid ∧
          (TripMatch.mk (some 100) (some 400) (some "A")).origin_secs =
            some (pyInt o.secs) ∧
          (400 : Int) = pyInt d.secs :=
  C1_no_mismatched_trips [Row.mk 100 100 (some "A") none]
    [Row.mk 400 400 (some "A") none]
    (TripMatch.mk (some 100) (some 400) (some "A")) (by decide) 400 rfl

/-- C6: when no origin row with a truthy trip id shares its trip id with any
destination row (in particular when all origin trip ids are null), the
correlator falls back to the first origin row's truncated ETA with a null
destination ETA and that row's trip id; with no origin rows at all it returns
`(none, none, none)`. When the origin rows are sorted ascending by `secs` (as
`_normalize_predictions` guarantees), that first row is an earliest one. -/
theorem C6_correlator_fallback (origin_rows dest_rows : List Row)
    (h : ∀ o ∈ origin_rows, truthyTrip o.trip_id = true →
      ∀ d ∈ dest_rows, d.trip_id ≠ o.trip_id) :
    (origin_rows = [] →
      match_origin_dest_by_trip origin_rows dest_rows = ⟨none, none, none⟩) ∧
    (∀ o0 rest, origin_rows = o0 :: rest →
      match_origin_dest_by_trip origin_rows dest_rows =
        ⟨some (pyInt o0.secs), none, o0.trip_id⟩ ∧
      (origin_rows.Pairwise rowLE → ∀ r ∈ origin_rows, o0.secs ≤ r.secs)) := by
  constructor
  · intro he
    subst he
    rfl
  · intro o0 rest heq
    subst heq
    have hnone := tryTripLoop_none (o0 :: rest) dest_rows h
    constructor
    · simp only [match_origin_dest_by_trip, hnone]
    · intro hsorted r hr
      rcases List.mem_cons.mp hr with hr0 | hrrest
      · rw [hr0]
      · exact (List.pairwise_cons.mp hsorted).1 r hrrest

/-- Witness for C6, the scenario from the spec: origin `[{trip:"A", eta:200}]`
against destination `[{trip:"B", eta:500}]` shares no trip, so the correlator
returns `(origin=200, dest=null, trip="A")`. -/
theorem C6_correlator_fallback_witness :
    match_origin_dest_by_trip [Row.mk 200 200 (some "A") none]
      [Row.mk 500 500 (some "B") none] =
      ⟨some 200, none, some "A"⟩ :=
  have h := (C6_correlator_fallback [Row.mk 200 200 (some "A") none]
    [Row.mk 500 500 (some "B") none] (by decide)).2
    (Row.mk 200 200 (some "A") none) [] rfl
  by simpa using h.1

/-- C2: for every threshold configuration (ordered or not) and every ETA, each
classifier returns exactly one of its five levels; it returns "URGENT"
whenever the ETA is at most the hard-coded urgent cutoff (30 s origin, 60 s
destination) no matter what the other thresholds are, because the urgent test
is first; and a null ETA always classifies as "IDLE". -/
theorem C2_classifier_urgent_first (cfg : Config) :
    (check_origin_alerts cfg none = "IDLE" ∧ check_dest_alerts cfg none = "IDLE") ∧
    (∀ e : Int, e ≤ 30 → check_origin_alerts cfg (some e) = "URGENT") ∧
    (∀ e : Int, e ≤ 60 → check_dest_alerts cfg (some e) = "URGENT") ∧
    (∀ eta : Option Int, check_origin_alerts cfg eta ∈ originLevels) ∧
    (∀ eta : Option Int, check_dest_alerts cfg eta ∈ destLevels) := by
  refine ⟨⟨rfl, rfl⟩, ?_, ?_, ?_, ?_⟩
  · intro e he
    simp [check_origin_alerts, if_pos he]
  · intro e he
    simp [check_dest_alerts, if_pos he]
  · intro eta
    cases eta with
    | none => simp [check_origin_alerts, originLevels]
    | some s =>
      simp only [check_origin_alerts, originLevels]
      split_ifs <;> simp
  · intro eta
    cases eta with
    | none => simp [check_dest_alerts, destLevels]
    | some s =>
      simp only [check_dest_alerts, destLevels]
      split_ifs <;> simp

/-- Witness for C2 at the default configuration: an ETA of 25 s at the origin
and 45 s at the destination both classify as "URGENT", and a null ETA as
"IDLE". -/
theorem C2_classifier_urgent_first_witness :
    check_origin_alerts defaultConfig (some 25) = "URGENT" ∧
    check_dest_alerts defaultConfig (some 45) = "URGENT" ∧
    check_origin_alerts defaultConfig none = "IDLE" := by
  refine ⟨(C2_classifier_urgent_first defaultConfig).2.1 25 (by decide),
    (C2_classifier_urgent_first defaultConfig).2.2.1 45 (by decide),
    (C2_classifier_urgent_first defaultConfig).1.1⟩

/-- The three tone lines `_doorbell` (app.py:207-214) writes on a level
transition. -/
def doorbell : List String := ["BUZZ 880 120", "BUZZ 988 120", "BUZZ 1175 180"]

/-- One side's change-driven dispatch block in `poll_loop` (app.py:356-361 for
the origin, 365-370 for the destination): when the classified alert differs
from the last emitted one, ring the doorbell, send "URGENT" for an urgent
alert, the level's own command for a non-idle alert, or "IDLE" explicitly,
then store the new level; otherwise do nothing. Returns the command lines
written and the new stored level. -/
def dispatchSide (last alert : String) : List String × String :=
  if alert = last then ([], last)
  else
    let cmd :=
      if alert = "URGENT" then "URGENT"
      else if !(alert = "IDLE") then alert
      else "IDLE"
    (doorbell ++ [cmd], alert)

/-- `send_led_status_update` (app.py:190-204), as the single command line it
sends. -/
def send_led_status_update (origin_secs dest_secs : Option Int) : String :=
  match origin_secs, dest_secs with
  | some o, some d => if o < d then "LED_STATUS_ORIGIN" else "LED_STATUS_DEST"
  | some _, none => "LED_STATUS_ORIGIN"
  | none, some _ => "LED_STATUS_DEST"
  | none, none => "LED_STATUS_NONE"

/-- The alert-level commands of the device vocabulary. -/
def levelCommands : List String :=
  ["URGENT", "IDLE", "ORIGIN_STOP", "ORIGIN_APPROACH", "ORIGIN_NEARBY",
   "DEST_STOP", "DEST_APPROACH", "DEST_NEARBY"]

/-- Whether a command line is an alert-level command. -/
def isLevelCmd (s : String) : Bool := levelCommands.contains s

/-- The orientation commands of the device vocabulary. -/
def ledCommands : List String :=
  ["LED_STATUS_ORIGIN", "LED_STATUS_DEST", "LED_STATUS_NONE"]

/-- Whether a command line is an orientation command. -/
def isLedCmd (s : String) : Bool := ledCommands.contains s

/-- The per-side last-emitted alert levels (`last_origin_alert`,
`last_dest_alert`, app.py:64-65). -/
structure DispatchState where
  last_origin_alert : String
  last_dest_alert : String
deriving DecidableEq, Repr

/-- The classify-and-dispatch section of one `poll_loop` cycle
(app.py:352-375): classify both sides, run the change-driven dispatch for
each, then unconditionally send the LED orientation command. Returns the
written command lines in order and the updated dispatch state. -/
def alertCycle (cfg : Config) (st : DispatchState) (o_secs d_secs : Option Int) :
    List String × DispatchState :=
  let origin_alert := check_origin_alerts cfg o_secs
  let dest_alert := check_dest_alerts cfg d_secs
  let po := dispatchSide st.last_origin_alert origin_alert
  let pd := dispatchSide st.last_dest_alert dest_alert
  (po.1 ++ pd.1 ++ [send_led_status_update o_secs d_secs], ⟨po.2, pd.2⟩)

/-- Run the origin-side classify-and-dispatch pipeline over a sequence of per
cycle ETAs, collecting the classified levels, all written command lines, and
the final stored level. -/
def runOriginCycles (cfg : Config) (last : String) :
    List (Option Int) → List String × List String × String
  | [] => ([], [], last)
  | eta :: more =>
    let alert := check_origin_alerts cfg eta
    let p := dispatchSide last alert
    let r := runOriginCycles cfg p.2 more
    (alert :: r.1, p.1 ++ r.2.1, r.2.2)

/-- On a level change the dispatch block always sends the new level's own
string as its single alert-level command (the "URGENT" and "IDLE" branches
send exactly those strings, which in those branches equal the alert). -/
theorem dispatchSide_changed (last alert : String) (hne : alert ≠ last) :
    dispatchSide last alert = (doorbell ++ [alert], alert) := by
  rw [dispatchSide, if_neg hne]
  by_cases hu : alert = "URGENT"
  · simp [hu]
  · by_cases hi : alert = "IDLE"
    · simp [hu, hi]
    · simp [hu, hi]

/-- The doorbell tones are not alert-level commands. -/
theorem doorbell_filter_level : doorbell.filter isLevelCmd = [] := rfl

/-- C4: dispatch is change-driven and idempotent. An alert-level command is
emitted only on a change of classified level for the side; an unchanged level
is a strict no-op; dispatching the same level twice in a row emits exactly one
alert-level command (the doorbell tone flourish aside), the second dispatch
emitting nothing; on a change the stored level is updated to the new level
unconditionally, "IDLE" being sent explicitly as its own command when
returning to idle. -/
theorem C4_change_driven_dispatch (last alert : String)
    (hlvl : isLevelCmd alert = true) :
    (alert = last → dispatchSide last alert = ([], last)) ∧
    (alert ≠ last → dispatchSide last alert = (doorbell ++ [alert], alert)) ∧
    ((dispatchSide last alert).1.filter isLevelCmd =
      if alert = last then [] else [alert]) ∧
    (dispatchSide (dispatchSide last alert).2 alert).1 = [] ∧
    (((dispatchSide last alert).1 ++
        (dispatchSide (dispatchSide last alert).2 alert).1).filter isLevelCmd =
      if alert = last then [] else [alert]) ∧
    (last ≠ "IDLE" → dispatchSide last "IDLE" = (doorbell ++ ["IDLE"], "IDLE")) := by
  have hsnd : (dispatchSide last alert).2 = alert ∨
      (alert = last ∧ (dispatchSide last alert).2 = last) := by
    by_cases he : alert = last
    · right; exact ⟨he, by rw [dispatchSide, if_pos he]⟩
    · left; rw [dispatchSide_changed last alert he]
  refine ⟨?_, ?_, ?_, ?_, ?_, ?_⟩
  · intro he; rw [dispatchSide, if_pos he]
  · intro hne; exact dispatchSide_changed last alert hne
  · by_cases he : alert = last
    · rw [dispatchSide, if_pos he, if_pos he]
      rfl
    · rw [dispatchSide_changed last alert he, if_neg he,
        List.filter_append, doorbell_filter_level]
      simp [hlvl]
  · rcases hsnd with h2 | ⟨he, h2⟩
    · rw [h2, dispatchSide, if_pos rfl]
    · rw [h2, dispatchSide, if_pos he]
  · have hnil : (dispatchSide (dispatchSide last alert).2 alert).1 = [] := by
      rcases hsnd with h2 | ⟨he, h2⟩
      · rw [h2, dispatchSide, if_pos rfl]
      · rw [h2, dispatchSide, if_pos he]
    rw [List.filter_append, hnil]
    by_cases he : alert = last
    · rw [dispatchSide, if_pos he, if_pos he]
      rfl
    · rw [dispatchSide_changed last alert he, if_neg he,
        List.filter_append, doorbell_filter_level]
      simp [hlvl]
  · intro hni
    exact dispatchSide_changed last "IDLE" (fun h => hni h.symm)

/-- Witness for C4 at a concrete transition: from stored level "IDLE",
dispatching "ORIGIN_NEARBY" twice emits the level command exactly once. -/
theorem C4_change_driven_dispatch_witness :
    ((dispatchSide "IDLE" "ORIGIN_NEARBY").1 ++
        (dispatchSide (dispatchSide "IDLE" "ORIGIN_NEARBY").2
          "ORIGIN_NEARBY").1).filter isLevelCmd =
      if ("ORIGIN_NEARBY" : String) = "IDLE" then [] else ["ORIGIN_NEARBY"] :=
  (C4_change_driven_dispatch "IDLE" "ORIGIN_NEARBY" (by decide)).2.2.2.2.1

/-- C9: with thresholds (urgent=30 hard-coded, stop=60, approach=120,
nearby=300) and origin ETAs [400, 290, 110, 25] over four cycles starting from
stored level "IDLE", the classified levels are
[IDLE, ORIGIN_NEARBY, ORIGIN_APPROACH, URGENT] and exactly three alert-level
commands are emitted, one per level change, none on the unchanged first
cycle. -/
theorem C9_origin_scenario :
    (runOriginCycles defaultConfig "IDLE"
        [some 400, some 290, some 110, some 25]).1 =
      ["IDLE", "ORIGIN_NEARBY", "ORIGIN_APPROACH", "URGENT"] ∧
    (runOriginCycles defaultConfig "IDLE"
        [some 400, some 290, some 110, some 25]).2.1.filter isLevelCmd =
      ["ORIGIN_NEARBY", "ORIGIN_APPROACH", "URGENT"] ∧
    ((runOriginCycles defaultConfig "IDLE"
        [some 400, some 290, some 110, some 25]).2.1.filter isLevelCmd).length
      = 3 ∧
    (dispatchSide "IDLE" (check_origin_alerts defaultConfig (some 400))).1
      = [] := by
  refine ⟨by decide, by decide, by decide, by decide⟩

/-- The origin classifier never produces an orientation command. -/
theorem check_origin_alerts_not_led (cfg : Config) (eta : Option Int) :
    isLedCmd (check_origin_alerts cfg eta) = false := by
  cases eta with
  | none => rfl
  | some s =>
    simp only [check_origin_alerts]
    split_ifs <;> rfl

/-- The destination classifier never produces an orientation command. -/
theorem check_dest_alerts_not_led (cfg : Config) (eta : Option Int) :
    isLedCmd (check_dest_alerts cfg eta) = false := by
  cases eta with
  | none => rfl
  | some s =>
    simp only [check_dest_alerts]
    split_ifs <;> rfl

/-- A dispatch block for a non-orientation alert writes no orientation
command. -/
theorem dispatchSide_filter_led (last alert : String)
    (h : isLedCmd alert = false) :
    (dispatchSide last alert).1.filter isLedCmd = [] := by
  by_cases he : alert = last
  · rw [dispatchSide, if_pos he]
    rfl
  · rw [dispatchSide_changed last alert he, List.filter_append]
    simp [h]
    decide

/-- The LED status update always sends an orientation command. -/
theorem send_led_status_update_is_led (o d : Option Int) :
    isLedCmd (send_led_status_update o d) = true := by
  cases o <;> cases d <;> simp only [send_led_status_update]
  · rfl
  · rfl
  · rfl
  · split_ifs <;> rfl

/-- C8: every poll cycle writes exactly one orientation command, whatever the
dispatch state and whether or not any level changed: "LED_STATUS_ORIGIN" when
the origin ETA is the sooner one or the only one present, "LED_STATUS_DEST"
when the destination ETA is the sooner one or the only one present, and
"LED_STATUS_NONE" when neither is present. -/
theorem C8_led_orientation_every_cycle (cfg : Config) (st : DispatchState)
    (o d : Option Int) :
    (alertCycle cfg st o d).1.filter isLedCmd = [send_led_status_update o d] ∧
    (∀ a b : Int, o = some a → d = some b → a < b →
      send_led_status_update o d = "LED_STATUS_ORIGIN") ∧
    (∀ a b : Int, o = some a → d = some b → b < a →
      send_led_status_update o d = "LED_STATUS_DEST") ∧
    (∀ a : Int, o = some a → d = none →
      send_led_status_update o d = "LED_STATUS_ORIGIN") ∧
    (∀ b : Int, o = none → d = some b →
      send_led_status_update o d = "LED_STATUS_DEST") ∧
    (o = none → d = none → send_led_status_update o d = "LED_STATUS_NONE") := by
  refine ⟨?_, ?_, ?_, ?_, ?_, ?_⟩
  · simp only [alertCycle, List.filter_append,
      dispatchSide_filter_led _ _ (check_origin_alerts_not_led cfg o),
      dispatchSide_filter_led _ _ (check_dest_alerts_not_led cfg d)]
    simp [send_led_status_update_is_led o d]
  · intro a b ha hb hab
    subst ha; subst hb
    simp [send_led_status_update, if_pos hab]
  · intro a b ha hb hba
    subst ha; subst hb
    simp [send_led_status_update, if_neg (not_lt.mpr (le_of_lt hba))]
  · intro a ha hd
    subst ha; subst hd
    rfl
  · intro b ho hb
    subst ho; subst hb
    rfl
  · intro ho hd
    subst ho; subst hd
    rfl

/-- Witness for C8: one cycle from idle state with origin ETA 100 s and
destination ETA 200 s writes exactly the single orientation command
"LED_STATUS_ORIGIN". -/
theorem C8_led_orientation_every_cycle_witness :
    (alertCycle defaultConfig ⟨"IDLE", "IDLE"⟩ (some 100) (some 200)).1.filter
        isLedCmd = [send_led_status_update (some 100) (some 200)] ∧
    send_led_status_update (some 100) (some 200) = "LED_STATUS_ORIGIN" :=
  ⟨(C8_led_orientation_every_cycle defaultConfig ⟨"IDLE", "IDLE"⟩
      (some 100) (some 200)).1,
    (C8_led_orientation_every_cycle defaultConfig ⟨"IDLE", "IDLE"⟩
      (some 100) (some 200)).2.1 100 200 rfl rfl (by decide)⟩

/-- The fetch-and-correlate step of one `poll_loop` cycle (app.py:330-340):
one try/except wraps the single `match_origin_dest_by_trip` call, which
fetches BOTH stops inside, so any exception yields `(None, None, None)` for
the whole cycle. -/
def pollMatchStep (fromiso : String → Option ℚ) (now : ℚ)
    (ofetch dfetch : Except Unit ApiResponse) : TripMatch :=
  match match_origin_dest_fetch fromiso now ofetch dfetch with
  | .ok t => t
  | .error _ => ⟨none, none, none⟩

unseal Rat.sub in
/-- Counterexample to C5: the origin fetch succeeds with a usable prediction
(trip "A", ETA 200 s) while the destination fetch raises; the cycle's result
is `(None, None, None)` — the successfully fetched origin data is discarded —
although the origin rows alone would have produced an origin ETA of 200 s.
Per-side fetch failures are NOT isolated: the except wraps the combined
fetch-and-match call. -/
theorem C5_counterexample :
    pollMatchStep (fun _ => some 300) 100
        (Except.ok ⟨[⟨some "T", none, some "A", none⟩]⟩) (Except.error ()) =
      ⟨none, none, none⟩ ∧
    match_origin_dest_by_trip
        (normalizeRows (fun _ => some 300) 100 [⟨some "T", none, some "A", none⟩])
        [] = ⟨some 200, none, some "A"⟩ ∧
    TripMatch.origin_secs ⟨none, none, none⟩ ≠ some 200 := by
  refine ⟨rfl, by decide, by decide⟩

/-- C5 as amended: failure isolation is per cycle, not per side. If either
stop's fetch raises, the whole cycle's trip match is `(None, None, None)` and
the loop continues; only when both fetches succeed are the two sides'
normalized predictions correlated. -/
theorem C5_amended_per_cycle_isolation (fromiso : String → Option ℚ) (now : ℚ)
    (ofetch dfetch : Except Unit ApiResponse) :
    ((ofetch = Except.error () ∨ dfetch = Except.error ()) →
      pollMatchStep fromiso now ofetch dfetch = ⟨none, none, none⟩) ∧
    (∀ oresp dresp : ApiResponse, ofetch = Except.ok oresp →
      dfetch = Except.ok dresp →
      pollMatchStep fromiso now ofetch dfetch =
        match_origin_dest_by_trip (normalizeRows fromiso now oresp.data)
          (normalizeRows fromiso now dresp.data)) := by
  constructor
  · intro h
    cases ofetch with
    | error e =>
      cases e
      cases dfetch with
      | error e2 => cases e2; rfl
      | ok dresp => rfl
    | ok oresp =>
      cases dfetch with
      | error e => cases e; rfl
      | ok dresp =>
        rcases h with h | h <;> exact absurd h (by simp)
  · intro oresp dresp ho hd
    subst ho; subst hd
    rfl

/-- Witness for C5's amended statement: with an erroring origin fetch the
cycle yields `(None, None, None)`. -/
theorem C5_amended_per_cycle_isolation_witness :
    pollMatchStep (fun _ => some 300) 0 (Except.error ())
        (Except.ok ⟨[]⟩) = ⟨none, none, none⟩ :=
  (C5_amended_per_cycle_isolation (fun _ => some 300) 0 (Except.error ())
    (Except.ok ⟨[]⟩)).1 (Or.inl rfl)

/-- Model of an open pyserial connection: only its `is_open` flag matters to
`_arduino_write`'s control flow. -/
structure SerialConn where
  is_open : Bool
deriving DecidableEq, Repr

/-- One entry of the bounded event log (`_log_event`, app.py:67-75): the event
kind, the command text sent, and the optional fallback note of the payload. -/
structure Event where
  kind : String
  sent : String
  note : Option String
deriving DecidableEq, Repr

/-- The device-channel state read and written by `_arduino_write`: the forced
simulation flag, the (possibly absent) serial connection, the last simulated
command, and the event log. -/
structure ChannelState where
  SIM_MODE : Bool
  arduino_connection : Option SerialConn
  sim_last_cmd : Option String
  event_log : List Event
deriving DecidableEq, Repr

/-- The outcome of one `connect_to_arduino` attempt (app.py:112-139): a port
is found and opens, no port is found, or opening the port raises. -/
inductive ConnectOutcome
  | success
  | no_port
  | open_error
deriving DecidableEq, Repr

/-- External nondeterminism of one `_arduino_write` call: how a connect
attempt would end and whether an attempted serial write raises. -/
structure DeviceEnv where
  connect_outcome : ConnectOutcome
  write_raises : Bool
deriving DecidableEq, Repr

/-- `_log_event` (app.py:67-75): append an entry and keep only the newest 200
entries. -/
def log_event (st : ChannelState) (kind sentTxt : String)
    (note : Option String) : ChannelState :=
  let log := st.event_log ++ [⟨kind, sentTxt, note⟩]
  { st with
    event_log := if log.length > 200 then log.drop (log.length - 200) else log }

/-- Python truthiness of `arduino_connection and arduino_connection.is_open`
(app.py:156). -/
def connOpen : Option SerialConn → Bool
  | none => false
  | some c => c.is_open

/-- `connect_to_arduino` (app.py:112-139) as it affects `_arduino_write`: on
success the global connection is a fresh open port and the call returns True;
with no port found it returns False leaving the connection alone; if opening
raises it returns False and clears the connection. -/
def connect_to_arduino (outcome : ConnectOutcome) (st : ChannelState) :
    Bool × ChannelState :=
  match outcome with
  | .success => (true, { st with arduino_connection := some ⟨true⟩ })
  | .no_port => (false, st)
  | .open_error => (false, { st with arduino_connection := none })

/-- The serial write at app.py:164-166 together with the enclosing except
handler (app.py:168-175): on success an `arduino_cmd` event is logged; on a
raise the connection is cleared, the simulated command recorded, a `sim_cmd`
event with the `auto-fallback-error` note logged, and True still returned. -/
def writeAttempt (env : DeviceEnv) (st : ChannelState) (msg_txt : String) :
    Bool × ChannelState :=
  if env.write_raises then
    let st := { st with
      arduino_connection := none
      sim_last_cmd := some msg_txt }
    (true, log_event st "sim_cmd" msg_txt (some "auto-fallback-error"))
  else
    (true, log_event st "arduino_cmd" msg_txt none)

/-- `_arduino_write` (app.py:141-175): forced simulation records and logs the
command; otherwise, with no open connection, a failed connect attempt falls
back to simulated delivery with the `auto-fallback-no-device` note; an
established connection is written to, with its own fallback on a raise. Every
path returns True. -/
def arduino_write (env : DeviceEnv) (st : ChannelState) (line : String) :
    Bool × ChannelState :=
  let msg_txt := line.trim
  if st.SIM_MODE then
    let st := { st with sim_last_cmd := some msg_txt }
    (true, log_event st "sim_cmd" msg_txt none)
  else if !(connOpen st.arduino_connection) then
    match connect_to_arduino env.connect_outcome st with
    | (false, st2) =>
      let st3 := { st2 with sim_last_cmd := some msg_txt }
      (true, log_event st3 "sim_cmd" msg_txt (some "auto-fallback-no-device"))
    | (true, st2) => writeAttempt env st2 msg_txt
  else
    writeAttempt env st msg_txt

/-- The event appended by `_log_event` is the last of the resulting log: the
ring-buffer truncation only evicts from the front. -/
theorem log_event_getLast (st : ChannelState) (kind sentTxt : String)
    (note : Option String) :
    (log_event st kind sentTxt note).event_log.getLast? =
      some ⟨kind, sentTxt, note⟩ := by
  simp only [log_event]
  by_cases h : (st.event_log ++ [Event.mk kind sentTxt note]).length > 200
  · rw [if_pos h]
    have hlen : (st.event_log ++ [Event.mk kind sentTxt note]).length - 200 ≤
        st.event_log.length := by
      simp only [List.length_append, List.length_singleton]
      omega
    rw [List.drop_append_of_le_length hlen, List.getLast?_concat]
  · rw [if_neg h, List.getLast?_concat]

/-- `_log_event` changes only the event log. -/
theorem log_event_fields (st : ChannelState) (kind sentTxt : String)
    (note : Option String) :
    (log_event st kind sentTxt note).SIM_MODE = st.SIM_MODE ∧
    (log_event st kind sentTxt note).arduino_connection =
      st.arduino_connection ∧
    (log_event st kind sentTxt note).sim_last_cmd = st.sim_last_cmd :=
  ⟨rfl, rfl, rfl⟩

/-- C3: `_arduino_write` reports success for every command in every channel
state and environment — forced simulation, absent device, and mid-session
write failure included — and in each fallback case the last event logged is
the simulated command carrying the fallback reason (no note under forced
simulation, `auto-fallback-no-device` when discovery or open fails,
`auto-fallback-error` when the write raises, the latter also tearing the
connection down). -/
theorem C3_arduino_write_total (env : DeviceEnv) (st : ChannelState)
    (line : String) :
    (arduino_write env st line).1 = true ∧
    (st.SIM_MODE = true →
      (arduino_write env st line).2.event_log.getLast? =
        some ⟨"sim_cmd", line.trim, none⟩ ∧
      (arduino_write env st line).2.sim_last_cmd = some line.trim) ∧
    (st.SIM_MODE = false → connOpen st.arduino_connection = false →
      env.connect_outcome ≠ ConnectOutcome.success →
      (arduino_write env st line).2.event_log.getLast? =
        some ⟨"sim_cmd", line.trim, some "auto-fallback-no-device"⟩ ∧
      (arduino_write env st line).2.sim_last_cmd = some line.trim) ∧
    (st.SIM_MODE = false → connOpen st.arduino_connection = true →
      env.write_raises = true →
      (arduino_write env st line).2.event_log.getLast? =
        some ⟨"sim_cmd", line.trim, some "auto-fallback-error"⟩ ∧
      (arduino_write env st line).2.arduino_connection = none) ∧
    (st.SIM_MODE = false → connOpen st.arduino_connection = false →
      env.connect_outcome = ConnectOutcome.success → env.write_raises = true →
      (arduino_write env st line).2.event_log.getLast? =
        some ⟨"sim_cmd", line.trim, some "auto-fallback-error"⟩) := by
  refine ⟨?_, ?_, ?_, ?_, ?_⟩
  · by_cases h1 : st.SIM_MODE = true
    · simp [arduino_write, h1]
    · have h1f : st.SIM_MODE = false := by simpa using h1
      by_cases h2 : connOpen st.arduino_connection = true
      · by_cases hw : env.write_raises = true <;>
          simp [arduino_write, h1f, h2, writeAttempt, hw]
      · have h2f : connOpen st.arduino_connection = false := by simpa using h2
        cases hoc : env.connect_outcome with
        | success =>
          by_cases hw : env.write_raises = true <;>
            simp [arduino_write, h1f, h2f, hoc, connect_to_arduino,
              writeAttempt, hw]
        | no_port =>
          simp [arduino_write, h1f, h2f, hoc, connect_to_arduino]
        | open_error =>
          simp [arduino_write, h1f, h2f, hoc, connect_to_arduino]
  · intro hsim
    simp [arduino_write, hsim, log_event_getLast, log_event_fields]
  · intro hsim hconn hco
    cases hoc : env.connect_outcome with
    | success => exact absurd hoc hco
    | no_port =>
      simp [arduino_write, hsim, hconn, hoc, connect_to_arduino,
        log_event_getLast, log_event_fields]
    | open_error =>
      simp [arduino_write, hsim, hconn, hoc, connect_to_arduino,
        log_event_getLast, log_event_fields]
  · intro hsim hconn hw
    simp [arduino_write, hsim, hconn, writeAttempt, hw,
      log_event_getLast, log_event_fields]
  · intro hsim hconn hco hw
    simp [arduino_write, hsim, hconn, hco, connect_to_arduino,
      writeAttempt, hw, log_event_getLast, log_event_fields]

/-- Witness for C3, the spec's forced-simulation scenario: with `SIM_MODE`
set, sending "URGENT" succeeds and the last event is a simulated-command
entry; and with no device discoverable the fallback entry carries the
`auto-fallback-no-device` note. -/
theorem C3_arduino_write_total_witness :
    (arduino_write ⟨ConnectOutcome.no_port, false⟩ ⟨true, none, none, []⟩
      "URGENT").1 = true ∧
    (arduino_write ⟨ConnectOutcome.no_port, false⟩ ⟨true, none, none, []⟩
      "URGENT").2.event_log.getLast? =
      some ⟨"sim_cmd", "URGENT".trim, none⟩ ∧
    (arduino_write ⟨ConnectOutcome.no_port, false⟩ ⟨false, none, none, []⟩
      "URGENT").2.event_log.getLast? =
      some ⟨"sim_cmd", "URGENT".trim, some "auto-fallback-no-device"⟩ :=
  ⟨(C3_arduino_write_total ⟨ConnectOutcome.no_port, false⟩
      ⟨true, none, none, []⟩ "URGENT").1,
    ((C3_arduino_write_total ⟨ConnectOutcome.no_port, false⟩
      ⟨true, none, none, []⟩ "URGENT").2.1 rfl).1,
    ((C3_arduino_write_total ⟨ConnectOutcome.no_port, false⟩
      ⟨false, none, none, []⟩ "URGENT").2.2.1 rfl rfl (by decide)).1⟩

instance : IsTotal Row rowLE := ⟨fun a b => le_total a.secs b.secs⟩

instance : IsTrans Row rowLE := ⟨fun _ _ _ hab hbc => le_trans hab hbc⟩

/-- A row produced by the normalization loop has a strictly positive ETA. -/
theorem normalizeItem_pos (f : String → Option ℚ) (now : ℚ) (item : RawItem)
    (r : Row) (h : normalizeItem f now item = some r) : 0 < r.secs := by
  cases hts : (parse_time f item.arrival_time).orElse
      (fun _ => parse_time f item.departure_time) with
  | none => simp [normalizeItem, hts] at h
  | some ts =>
    simp only [normalizeItem, hts] at h
    by_cases hle : ts - now ≤ 0
    · rw [if_pos hle] at h
      cases h
    · rw [if_neg hle] at h
      injection h with h
      rw [← h]
      exact lt_of_not_le hle

/-- An item neither of whose timestamps parses is dropped by the
normalization loop. -/
theorem normalizeItem_malformed (f : String → Option ℚ) (now : ℚ)
    (item : RawItem) (ha : parse_time f item.arrival_time = none)
    (hd : parse_time f item.departure_time = none) :
    normalizeItem f now item = none := by
  simp [normalizeItem, ha, hd, Option.orElse]

/-- Every row surviving normalization has a strictly positive ETA. -/
theorem normalizeRows_pos (f : String → Option ℚ) (now : ℚ)
    (data : List RawItem) : ∀ r ∈ normalizeRows f now data, 0 < r.secs := by
  intro r hr
  have hmem : r ∈ data.filterMap (normalizeItem f now) :=
    (List.perm_insertionSort rowLE _).subset hr
  obtain ⟨item, _, hi⟩ := List.mem_filterMap.mp hmem
  exact normalizeItem_pos f now item r hi

/-- C7: for every abstract timestamp parser, current instant, fetched data
array and page limit, `_normalize_predictions` returns rows sorted ascending
by ETA, all with strictly positive ETA, no more rows than raw items (hence at
most `limit` of them when the API honours its page limit); an item with
missing or unparseable timestamps is skipped without failing the whole fetch;
and a string that the underlying parser accepts after the "Z" suffix is
rewritten to "+00:00" is parsed to that same absolute instant. -/
theorem C7_normalization (f : String → Option ℚ) (now : ℚ)
    (data : List RawItem) (limit : ℕ) :
    List.Pairwise rowLE (normalizeRows f now data) ∧
    (∀ r ∈ normalizeRows f now data, 0 < r.secs) ∧
    (data.length ≤ limit → (normalizeRows f now data).length ≤ limit) ∧
    (∀ xs ys item, data = xs ++ item :: ys →
      parse_time f item.arrival_time = none →
      parse_time f item.departure_time = none →
      normalizeRows f now data = normalizeRows f now (xs ++ ys)) ∧
    (∀ s : String, ∀ t : ℚ, s ≠ "" → f (s.replace "Z" "+00:00") = some t →
      parse_time f (some s) = some t) := by
  refine ⟨?_, ?_, ?_, ?_, ?_⟩
  · exact List.sorted_insertionSort rowLE _
  · exact normalizeRows_pos f now data
  · intro hlim
    have h1 : (normalizeRows f now data).length =
        (data.filterMap (normalizeItem f now)).length :=
      (List.perm_insertionSort rowLE _).length_eq
    have h2 := List.length_filterMap_le (normalizeItem f now) data
    omega
  · intro xs ys item hdata ha hd
    subst hdata
    unfold normalizeRows
    rw [List.filterMap_append, List.filterMap_append,
      List.filterMap_cons_none (normalizeItem_malformed f now item ha hd)]
  · intro s t hs hf
    simp [parse_time, hs, hf]

/-- Witness for C7: a single item whose arrival time parses to instant 1 at
current instant 0 yields at most the page limit of 8 rows, and a non-empty
string accepted by the parser after Z-normalization parses to its instant. -/
theorem C7_normalization_witness :
    (normalizeRows (fun _ => some 1) 0
      [RawItem.mk (some "x") none (some "A") none]).length ≤ 8 ∧
    parse_time (fun _ => some 1) (some "x") = some 1 :=
  ⟨(C7_normalization (fun _ => some 1) 0
      [RawItem.mk (some "x") none (some "A") none] 8).2.2.1 (by decide),
    (C7_normalization (fun _ => some 1) 0
      [RawItem.mk (some "x") none (some "A") none] 8).2.2.2.2 "x" 1
      (by decide) rfl⟩

/-- Whenever the correlator reports an origin ETA, it is the `int()`
truncation of some origin row's positive ETA. -/
theorem match_origin_provenance (origin dest : List Row) (e : Int)
    (h : (match_origin_dest_by_trip origin dest).origin_secs = some e) :
    ∃ r ∈ origin, e = pyInt r.secs := by
  cases origin with
  | nil => simp [match_origin_dest_by_trip] at h
  | cons o0 rest =>
    cases hl : tryTripLoop (o0 :: rest) dest with
    | none =>
      simp only [match_origin_dest_by_trip, hl] at h
      exact ⟨o0, List.mem_cons_self o0 rest, by simpa using h.symm⟩
    | some triple =>
      obtain ⟨os, ds, tid⟩ := triple
      simp only [match_origin_dest_by_trip, hl] at h
      obtain ⟨o, ho, d, hdmem, _, _, _, hos, _⟩ :=
        tryTripLoop_sound (o0 :: rest) dest os ds tid hl
      refine ⟨o, ho, ?_⟩
      rw [← hos]
      simpa using h.symm

/-- Whenever the correlator reports a destination ETA, it is the `int()`
truncation of some destination row's positive ETA. -/
theorem match_dest_provenance (origin dest : List Row) (e : Int)
    (h : (match_origin_dest_by_trip origin dest).dest_secs = some e) :
    ∃ r ∈ dest, e = pyInt r.secs := by
  cases origin with
  | nil => simp [match_origin_dest_by_trip] at h
  | cons o0 rest =>
    cases hl : tryTripLoop (o0 :: rest) dest with
    | none =>
      simp only [match_origin_dest_by_trip, hl] at h
      cases h
    | some triple =>
      obtain ⟨os, ds, tid⟩ := triple
      simp only [match_origin_dest_by_trip, hl] at h
      obtain ⟨o, ho, d, hdmem, _, _, _, _, hds⟩ :=
        tryTripLoop_sound (o0 :: rest) dest os ds tid hl
      refine ⟨d, hdmem, ?_⟩
      rw [← hds]
      simpa using h.symm

/-- Truncation toward zero of a positive rational is non-negative. -/
theorem pyInt_nonneg (q : ℚ) (hq : 0 < q) : 0 ≤ pyInt q := by
  rw [pyInt, if_pos (le_of_lt hq)]
  exact Int.le_floor.mpr (by simpa using le_of_lt hq)

/-- C10: through the full normalize-then-correlate pipeline, every reported
ETA is the `int()` truncation (toward zero) of some retained row's strictly
positive fractional ETA, hence a non-negative integer; and truncation sends
every ETA strictly between 0 and 1 second to 0, so a reported ETA can be 0
even though normalization keeps only strictly positive ETAs. -/
theorem C10_int_truncation (f : String → Option ℚ) (now : ℚ)
    (odata ddata : List RawItem) :
    (∀ e : Int,
      (match_origin_dest_by_trip (normalizeRows f now odata)
        (normalizeRows f now ddata)).origin_secs = some e →
      0 ≤ e ∧ ∃ r ∈ normalizeRows f now odata, 0 < r.secs ∧ e = pyInt r.secs) ∧
    (∀ e : Int,
      (match_origin_dest_by_trip (normalizeRows f now odata)
        (normalizeRows f now ddata)).dest_secs = some e →
      0 ≤ e ∧ ∃ r ∈ normalizeRows f now ddata, 0 < r.secs ∧ e = pyInt r.secs) ∧
    (∀ q : ℚ, 0 < q → q < 1 → pyInt q = 0) := by
  refine ⟨?_, ?_, ?_⟩
  · intro e he
    obtain ⟨r, hr, hval⟩ := match_origin_provenance _ _ e he
    have hpos := normalizeRows_pos f now odata r hr
    exact ⟨hval ▸ pyInt_nonneg r.secs hpos, r, hr, hpos, hval⟩
  · intro e he
    obtain ⟨r, hr, hval⟩ := match_dest_provenance _ _ e he
    have hpos := normalizeRows_pos f now ddata r hr
    exact ⟨hval ▸ pyInt_nonneg r.secs hpos, r, hr, hpos, hval⟩
  · intro q h0 h1
    rw [pyInt, if_pos (le_of_lt h0)]
    exact Int.floor_eq_zero_iff.mpr ⟨le_of_lt h0, h1⟩

unseal Rat.sub Rat.mul Rat.inv in
/-- Witness for C10: an origin prediction whose ETA is half a second survives
normalization (it is strictly positive) yet the correlator reports an origin
ETA of exactly 0, the truncation of 1/2. -/
theorem C10_int_truncation_witness :
    (match_origin_dest_by_trip
      (normalizeRows (fun _ => some (1/2)) 0
        [RawItem.mk (some "t") none (some "A") none])
      (normalizeRows (fun _ => some (1/2)) 0 [])).origin_secs = some 0 ∧
    (0 ≤ (0 : Int) ∧
      ∃ r ∈ normalizeRows (fun _ => some (1/2)) 0
        [RawItem.mk (some "t") none (some "A") none],
        0 < r.secs ∧ (0 : Int) = pyInt r.secs) ∧
    pyInt (1/2) = 0 :=
  ⟨by decide,
    (C10_int_truncation (fun _ => some (1/2)) 0
      [RawItem.mk (some "t") none (some "A") none] []).1 0 (by decide),
    (C10_int_truncation (fun _ => some (1/2)) 0
      [RawItem.mk (some "t") none (some "A") none] []).2.2 (1/2)
      (by decide) (by decide)⟩

end BuzzBand
